import Mathlib

/-!
Verification development for the history-extractor bot
(`src/bot_logic.py`, `src/main.py`).

The Python source is shallowly embedded: time instants are integers
(minutes), the Telethon message stream is a list of events (messages and
the exceptions the transport can raise), filesystem and network effects
are explicit environments, and every function is a total Lean `def`
mirroring the reachable control flow of the corresponding Python
function.
-/

namespace HistoryBot

/-! ## Data model (`telethon.tl.types` as used by `bot_logic.py`) -/

/-- One entry of `message.reactions.results`: a `ReactionCount` carrying the
reaction symbol and how many users reacted with it. -/
structure ReactionEntry where
  reaction : String
  count : Nat
deriving DecidableEq, Repr

/-- The Telethon `Photo` media object; only its `id` is used by the code
(for filenames). -/
structure PhotoObj where
  id : Nat
deriving DecidableEq, Repr

/-- A Telethon `Message` as consumed by `bot_logic.py`: `date` is the UTC
timestamp (modelled in minutes), `photo` is `msg.photo` when it is a
`Photo`, `sender_name` is the display name resolved via `get_sender` /
`get_display_name` (transport lookup collapsed into a field). -/
structure Msg where
  id : Nat
  chat_id : Int
  date : Int
  text : String
  reactions : List ReactionEntry
  photo : Option PhotoObj
  sender_name : String
  sender_id : Option Int
deriving DecidableEq, Repr

/-! ## Interval resolver (`get_last_full_day_range_utc` and the
`target_date_override` branch of `process_chat_history`, lines 46-69 and
207-216 of `bot_logic.py`)

pytz semantics embedded here:
`target_tz.localize(datetime.combine(day, time.min))` attaches to the
naive local midnight the UTC offset the zone has at that wall-clock
instant; adding `timedelta(days=1)` to the localized value advances the
wall clock by one day but keeps the attached fixed offset unchanged
(pytz requires `normalize()` to refresh it, which the code never calls);
`astimezone(pytz.utc)` subtracts the attached offset.  Wall-clock local
times and UTC instants are both measured in minutes; a calendar day `d`
has its local midnight at wall minute `d * 1440`. -/

/-- A pytz timezone, reduced to the only operation the code exercises:
the UTC offset (minutes east) that `localize` attaches at a given naive
local wall-clock minute. -/
structure PytzTimezone where
  utcoffset : Int → Int

/-- The UTC instant of day `d`'s local midnight:
`localize(combine(d, time.min)).astimezone(utc)`. -/
def start_dt_utc (tz : PytzTimezone) (d : Int) : Int :=
  d * 1440 - tz.utcoffset (d * 1440)

/-- The UTC end instant the code computes for day `d`:
`(localize(combine(d, time.min)) + timedelta(days=1)).astimezone(utc)`.
The wall clock advances by 1440 minutes, but the offset attached by
`localize` at day `d`'s midnight is kept (no `normalize()`). -/
def end_dt_utc (tz : PytzTimezone) (d : Int) : Int :=
  (d * 1440 + 1440) - tz.utcoffset (d * 1440)

/-- The code's end instant agrees with the next day's start instant
exactly when the zone's UTC offset at the two consecutive local
midnights is the same (true for fixed-offset zones, false across a DST
transition). -/
theorem end_eq_next_start_iff (tz : PytzTimezone) (d : Int) :
    end_dt_utc tz d = start_dt_utc tz (d + 1) ↔
      tz.utcoffset ((d + 1) * 1440) = tz.utcoffset (d * 1440) := by
  unfold end_dt_utc start_dt_utc
  constructor
  · intro h
    omega
  · intro h
    omega

/-- Europe/London around its 2024 spring DST transition, with wall
minutes counted from local midnight of 2024-03-31 (day `0`; day `1` is
2024-04-01).  Clocks jump from GMT (offset 0) to BST (offset 60) at
01:00 local on 2024-03-31, i.e. at wall minute 60; wall minutes in
`[60, 120)` do not exist and are below the transition in pytz's
resolution. -/
def londonSpring2024 : PytzTimezone :=
  ⟨fun w => if w < 120 then 0 else 60⟩

/-- C3, code evidence: for the model of Europe/London at the 2024 spring
transition, the end instant computed for 2024-03-31 (day 0) is UTC
minute 1440 (2024-04-01 00:00 UTC, using the stale GMT offset), while
the start instant computed for 2024-04-01 (day 1) is UTC minute 1380
(2024-03-31 23:00 UTC, the true BST midnight) — the two windows overlap
by one hour instead of sharing their boundary, and the computed end is
not the UTC instant of the following local midnight. -/
theorem C3_dst_boundary_mismatch :
    end_dt_utc londonSpring2024 0 = 1440 ∧
    start_dt_utc londonSpring2024 1 = 1380 ∧
    end_dt_utc londonSpring2024 0 ≠ start_dt_utc londonSpring2024 1 := by
  refine ⟨by decide, by decide, by decide⟩

/-! ## History stream reader (`get_chat_history_for_day_telethon`,
lines 72-144 of `bot_logic.py`)

The `async for message in client.iter_messages(...)` stream is a list of
events: each pull either yields a message or raises one of the
exceptions the function handles.  The returned `FetchResult` carries,
besides the list the Python function returns, two instrumentation
fields for externally observable effects: `examined` counts how many
stream events were pulled (each pull is transport I/O), and `slept`
records the seconds passed to `asyncio.sleep` on a `FloodWaitError`. -/

/-- One pull from the Telethon message iterator. -/
inductive StreamEvent where
  /-- the iterator yields a message -/
  | msg (m : Msg)
  /-- the transport raises `FloodWaitError(seconds)` -/
  | floodWait (seconds : Nat)
  /-- `ChatAdminRequiredError` or `UserNotParticipantError` -/
  | accessError
  /-- `ValueError` (invalid chat entity) -/
  | valueError
  /-- any other exception -/
  | otherError
deriving DecidableEq, Repr

/-- Result of one call to the reader: the returned message list plus the
instrumented observable effects. -/
structure FetchResult where
  messages : List Msg
  examined : Nat
  slept : Nat
deriving DecidableEq, Repr

/-- The `async for` loop body of `get_chat_history_for_day_telethon`
(lines 98-126) together with the surrounding `try/except` (lines
131-144).  `s`/`e` are `start_dt_utc`/`end_dt_utc`.  Control flow per
message, exactly as in the source: `if msg_date >= end: continue`, then
the no-op `< start` check, then `if start <= msg_date < end: append`
`elif msg_date >= end: break` (that `elif` is unreachable because of the
first `continue`; it is kept here verbatim).  Every handled exception
abandons the loop and returns `[]`, a `FloodWaitError` additionally
sleeping `seconds + 1`. -/
def history_loop (s e : Int) : List StreamEvent → List Msg → Nat → FetchResult
  | [], acc, ex => ⟨acc, ex, 0⟩
  | StreamEvent.msg m :: rest, acc, ex =>
      if e ≤ m.date then
        history_loop s e rest acc (ex + 1)
      else if s ≤ m.date ∧ m.date < e then
        history_loop s e rest (acc ++ [m]) (ex + 1)
      else if e ≤ m.date then
        ⟨acc, ex + 1, 0⟩
      else
        history_loop s e rest acc (ex + 1)
  | StreamEvent.floodWait secs :: _, _, ex => ⟨[], ex + 1, secs + 1⟩
  | StreamEvent.accessError :: _, _, ex => ⟨[], ex + 1, 0⟩
  | StreamEvent.valueError :: _, _, ex => ⟨[], ex + 1, 0⟩
  | StreamEvent.otherError :: _, _, ex => ⟨[], ex + 1, 0⟩

/-- `get_chat_history_for_day_telethon`: the authorization guard at
lines 88-92 (`return []` when the session is not authorized), then the
iteration loop. -/
def get_chat_history_for_day_telethon (authorized : Bool) (s e : Int)
    (events : List StreamEvent) : FetchResult :=
  if authorized then history_loop s e events [] 0 else ⟨[], 0, 0⟩

/-- Membership test for the half-open window `[s, e)`, the predicate the
loop's emission check implements. -/
def in_window (s e : Int) (m : Msg) : Bool :=
  decide (s ≤ m.date) && decide (m.date < e)

/-- Master lemma: consuming a block of message events appends exactly the
in-window messages to the accumulator, counts one examination per event,
and then continues with the remaining events.  In particular the loop
never leaves a message block early: the dead `break` branch is never
taken. -/
theorem history_loop_append (s e : Int) (msgs : List Msg)
    (evs : List StreamEvent) (acc : List Msg) (ex : Nat) :
    history_loop s e (msgs.map StreamEvent.msg ++ evs) acc ex =
      history_loop s e evs (acc ++ msgs.filter (in_window s e))
        (ex + msgs.length) := by
  induction msgs generalizing acc ex with
  | nil => simp
  | cons m rest ih =>
      simp only [List.map_cons, List.cons_append, history_loop, List.append_eq]
      by_cases h1 : e ≤ m.date
      · rw [if_pos h1, ih]
        have hw : in_window s e m = false := by
          unfold in_window
          simp only [Bool.and_eq_false_iff, decide_eq_false_iff_not]
          right
          omega
        have hx : ex + 1 + rest.length = ex + (rest.length + 1) := by omega
        simp [List.filter_cons, hw, hx]
      · rw [if_neg h1]
        by_cases h2 : s ≤ m.date ∧ m.date < e
        · rw [if_pos h2, ih]
          have hw : in_window s e m = true := by
            unfold in_window
            simp only [Bool.and_eq_true, decide_eq_true_eq]
            exact h2
          have hx : ex + 1 + rest.length = ex + (rest.length + 1) := by omega
          simp [List.filter_cons, hw, hx]
        · rw [if_neg h2, if_neg h1, ih]
          have hw : in_window s e m = false := by
            unfold in_window
            simp only [Bool.and_eq_false_iff, decide_eq_false_iff_not]
            by_cases hs : s ≤ m.date
            · right
              intro hlt
              exact h2 ⟨hs, hlt⟩
            · left
              exact hs
          have hx : ex + 1 + rest.length = ex + (rest.length + 1) := by omega
          simp [List.filter_cons, hw, hx]

/-- A stream consisting only of message events is consumed in full and
yields exactly the in-window messages. -/
theorem history_msgs_only (s e : Int) (msgs : List Msg) :
    get_chat_history_for_day_telethon true s e (msgs.map StreamEvent.msg) =
      ⟨msgs.filter (in_window s e), msgs.length, 0⟩ := by
  unfold get_chat_history_for_day_telethon
  rw [if_pos rfl]
  have h := history_loop_append s e msgs [] [] 0
  simp only [List.append_nil] at h
  simpa [history_loop] using h

/-- C8: window membership is the half-open interval `[startUtc, endUtc)`
— a message is emitted by the reader iff it is in the stream and its
timestamp `t` satisfies `startUtc ≤ t < endUtc`; in particular a message
timestamped exactly at `startUtc` is included and one timestamped
exactly at `endUtc` is excluded. -/
theorem C8_half_open_window (s e : Int) (msgs : List Msg) (m : Msg) :
    m ∈ (get_chat_history_for_day_telethon true s e
            (msgs.map StreamEvent.msg)).messages ↔
      m ∈ msgs ∧ s ≤ m.date ∧ m.date < e := by
  rw [history_msgs_only]
  simp [in_window, List.mem_filter, and_assoc]

/-- C2, counterexample: with window `[0, 10)` and the monotone stream of
messages timestamped 5, 10, 11, the first message at or after `endUtc`
is the second one, so the claim demands that at most 2 events be
examined; the code's `continue` branch skips it instead of breaking
(the `break` is unreachable) and all 3 events are examined.  Emission is
unaffected: only the message at 5 is returned. -/
theorem C2_counterexample :
    get_chat_history_for_day_telethon true 0 10
        [StreamEvent.msg ⟨1, 42, 5, "", [], none, "s", none⟩,
         StreamEvent.msg ⟨2, 42, 10, "", [], none, "s", none⟩,
         StreamEvent.msg ⟨3, 42, 11, "", [], none, "s", none⟩] =
      ⟨[⟨1, 42, 5, "", [], none, "s", none⟩], 3, 0⟩ := by
  decide

/-- C2, amended: the reader does not terminate at the first message at
or after `endUtc`; it examines every event of a message-only stream
(the `break` branch is dead code, defeated by the earlier `continue`),
skipping messages at or after `endUtc` without emitting them, so the
emitted sequence is still exactly the in-window messages. -/
theorem C2_amended_no_early_termination (s e : Int) (msgs : List Msg) :
    (get_chat_history_for_day_telethon true s e
        (msgs.map StreamEvent.msg)).examined = msgs.length ∧
    (get_chat_history_for_day_telethon true s e
        (msgs.map StreamEvent.msg)).messages = msgs.filter (in_window s e) := by
  rw [history_msgs_only]
  exact ⟨rfl, rfl⟩

/-- C6, counterexample: a run whose stream yields a message at 3, then a
`FloodWaitError(5)`, then a message at 4, returns no messages at all,
while the unthrottled run (same stream without the flood event) returns
both; the caller gets an empty — not merely delayed — result, and even
the already-collected message is discarded. -/
theorem C6_counterexample :
    (get_chat_history_for_day_telethon true 0 10
        [StreamEvent.msg ⟨1, 42, 3, "", [], none, "s", none⟩,
         StreamEvent.floodWait 5,
         StreamEvent.msg ⟨2, 42, 4, "", [], none, "s", none⟩]).messages = []
      ∧
    (get_chat_history_for_day_telethon true 0 10
        [StreamEvent.msg ⟨1, 42, 3, "", [], none, "s", none⟩,
         StreamEvent.msg ⟨2, 42, 4, "", [], none, "s", none⟩]).messages =
      [⟨1, 42, 3, "", [], none, "s", none⟩,
       ⟨2, 42, 4, "", [], none, "s", none⟩] := by
  refine ⟨by decide, by decide⟩

/-- C6, amended: when the transport raises `FloodWaitError(k)` after any
block of message events, the reader sleeps `k + 1` seconds and then
abandons the read, returning the empty list — the messages collected so
far are discarded and the stream is not resumed. -/
theorem C6_amended_floodwait_aborts (s e : Int) (pre : List Msg) (k : Nat)
    (rest : List StreamEvent) :
    get_chat_history_for_day_telethon true s e
        (pre.map StreamEvent.msg ++ StreamEvent.floodWait k :: rest) =
      ⟨[], pre.length + 1, k + 1⟩ := by
  unfold get_chat_history_for_day_telethon
  rw [if_pos rfl, history_loop_append]
  simp [history_loop, Nat.add_comm]

/-! ## Reaction counting (`count_telethon_message_reactions`, lines
147-165 of `bot_logic.py`) -/

/-- Sum of the `count` fields of a reaction list. -/
def sum_reaction_counts (rs : List ReactionEntry) : Nat :=
  rs.foldl (fun a r => a + r.count) 0

/-- `count_telethon_message_reactions(message, like_emojis)`: 0 when the
message has no reactions; when `like_emojis` is truthy (present and
non-empty) only reactions whose symbol is in the list contribute,
otherwise every reaction counts.  (`if like_emojis:` in Python is false
both for `None` and for an empty list.) -/
def count_telethon_message_reactions (m : Msg)
    (like_emojis : Option (List String)) : Nat :=
  if m.reactions.isEmpty then 0
  else
    match like_emojis with
    | some allowed =>
        if allowed.isEmpty then sum_reaction_counts m.reactions
        else sum_reaction_counts
          (m.reactions.filter (fun r => allowed.contains r.reaction))
    | none => sum_reaction_counts m.reactions

/-! ## Message processing loop (`process_chat_history`, lines 265-303 of
`bot_logic.py`): every message becomes a `message_info` manifest entry;
messages whose `msg.photo` is a `Photo` get a photo entry recording the
in-archive path, and additionally a scheduled download task when the
reaction tally reaches `min_reactions`. -/

/-- Configuration slice read at lines 195-200 of `bot_logic.py`. -/
structure Config where
  min_reactions : Nat
  like_emojis : Option (List String)
  download_dir : String
  archive_dir : String
deriving DecidableEq, Repr

/-- The filename built at line 290:
`f"{target_day}_{msg.chat_id}_{msg.id}_{photo_id}.jpg"`. -/
def photo_filename (target_day : String) (chat_id : Int) (msg_id photo_id : Nat) :
    String :=
  target_day ++ "_" ++ toString chat_id ++ "_" ++ toString msg_id ++ "_"
    ++ toString photo_id ++ ".jpg"

/-- One element of `message_info["photos"]` (line 292). -/
structure PhotoEntry where
  photo_id : Nat
  zip_path : String
deriving DecidableEq, Repr

/-- A `message_info` manifest record (lines 275-283). -/
structure MessageInfo where
  message_id : Nat
  sender : String
  sender_id : Option Int
  timestamp : Int
  text : String
  reactions : Nat
  photos : List PhotoEntry
deriving DecidableEq, Repr

/-- The per-message download data stored in `photo_details[msg.id]`
(line 297); the scheduled task (line 299) carries the same media and
destination path. -/
structure PhotoDetail where
  local_path : String
  zip_path : String
  media : PhotoObj
deriving DecidableEq, Repr

/-- Python dict assignment `d[k] = v` on an insertion-ordered
association list: overwrite in place if the key exists, else append. -/
def dictInsert {α : Type} (k : Nat) (v : α) :
    List (Nat × α) → List (Nat × α)
  | [] => [(k, v)]
  | (k1, v1) :: rest =>
      if k1 = k then (k, v) :: rest else (k1, v1) :: dictInsert k v rest

/-- Accumulators of the message loop: `processed_data`, `photo_details`
and `photo_download_tasks` (lines 247-250). -/
structure ProcessingState where
  processed_data : List MessageInfo
  photo_details : List (Nat × PhotoDetail)
  tasks : List PhotoDetail
deriving DecidableEq, Repr

/-- The body of the `for msg in messages` loop (lines 268-303) for an
item that passed the `isinstance(msg, Message)` guard of lines 266-267
(the guard itself is `process_item` below): build `message_info`; when
the message has a `Photo`, record the photo entry with its in-zip path,
and when `reaction_count >= min_reactions` also store the download
detail and schedule the download task; finally append `message_info` to
`processed_data`. -/
def process_message (cfg : Config) (target_day : String)
    (st : ProcessingState) (msg : Msg) : ProcessingState :=
  let rc := count_telethon_message_reactions msg cfg.like_emojis
  let base : MessageInfo :=
    { message_id := msg.id, sender := msg.sender_name,
      sender_id := msg.sender_id, timestamp := msg.date, text := msg.text,
      reactions := rc, photos := [] }
  match msg.photo with
  | none => { st with processed_data := st.processed_data ++ [base] }
  | some p =>
      let fn := photo_filename target_day msg.chat_id msg.id p.id
      let zp := "photos/" ++ fn
      let info := { base with photos := [⟨p.id, zp⟩] }
      if cfg.min_reactions ≤ rc then
        { processed_data := st.processed_data ++ [info],
          photo_details :=
            dictInsert msg.id ⟨cfg.download_dir ++ "/" ++ fn, zp, p⟩
              st.photo_details,
          tasks := st.tasks ++ [⟨cfg.download_dir ++ "/" ++ fn, zp, p⟩] }
      else { st with processed_data := st.processed_data ++ [info] }

/-- The message loop over a fetched list that consists solely of proper
`Message` items, as the reader model of this development produces; the
full loop over arbitrary fetched items, including the
`isinstance(msg, Message)` guard at lines 266-267, is `process_fetched`
below, and `process_fetched_messages_only` relates the two. -/
def process_messages (cfg : Config) (target_day : String)
    (msgs : List Msg) : ProcessingState :=
  msgs.foldl (process_message cfg target_day) ⟨[], [], []⟩

/-- The manifest record the loop produces for a message: photo entry
present (with the in-archive path) exactly when the message carries a
photo, regardless of the reaction tally. -/
def record_of (cfg : Config) (target_day : String) (m : Msg) : MessageInfo :=
  { message_id := m.id, sender := m.sender_name, sender_id := m.sender_id,
    timestamp := m.date, text := m.text,
    reactions := count_telethon_message_reactions m cfg.like_emojis,
    photos :=
      match m.photo with
      | none => []
      | some p =>
          [⟨p.id, "photos/" ++ photo_filename target_day m.chat_id m.id p.id⟩] }

/-- The download task the loop schedules for a message: present exactly
when the message carries a photo and its tally reaches the (closed)
threshold. -/
def qualifying_task (cfg : Config) (target_day : String) (m : Msg) :
    Option PhotoDetail :=
  match m.photo with
  | none => none
  | some p =>
      if cfg.min_reactions ≤ count_telethon_message_reactions m cfg.like_emojis
      then
        some ⟨cfg.download_dir ++ "/"
                ++ photo_filename target_day m.chat_id m.id p.id,
              "photos/" ++ photo_filename target_day m.chat_id m.id p.id, p⟩
      else none

/-- One loop step appends exactly one manifest record. -/
theorem process_message_processed (cfg : Config) (d : String)
    (st : ProcessingState) (m : Msg) :
    (process_message cfg d st m).processed_data =
      st.processed_data ++ [record_of cfg d m] := by
  unfold process_message record_of
  cases hp : m.photo with
  | none => simp
  | some p =>
      simp only []
      split
      · rfl
      · rfl

/-- One loop step appends the message's qualifying task (if any) to the
task list. -/
theorem process_message_tasks (cfg : Config) (d : String)
    (st : ProcessingState) (m : Msg) :
    (process_message cfg d st m).tasks =
      st.tasks ++ (qualifying_task cfg d m).toList := by
  unfold process_message qualifying_task
  cases hp : m.photo with
  | none => simp
  | some p =>
      simp only []
      split
      · simp
      · simp

/-- The loop's manifest output is one record per fetched message, in
order. -/
theorem process_messages_processed_aux (cfg : Config) (d : String)
    (msgs : List Msg) (st : ProcessingState) :
    (msgs.foldl (process_message cfg d) st).processed_data =
      st.processed_data ++ msgs.map (record_of cfg d) := by
  induction msgs generalizing st with
  | nil => simp
  | cons m rest ih =>
      rw [List.foldl_cons, ih, process_message_processed]
      simp

/-- The loop's scheduled tasks are exactly the qualifying messages'
tasks, in order. -/
theorem process_messages_tasks_aux (cfg : Config) (d : String)
    (msgs : List Msg) (st : ProcessingState) :
    (msgs.foldl (process_message cfg d) st).tasks =
      st.tasks ++ msgs.filterMap (qualifying_task cfg d) := by
  induction msgs generalizing st with
  | nil => simp
  | cons m rest ih =>
      rw [List.foldl_cons, ih, process_message_tasks]
      cases hq : qualifying_task cfg d m with
      | none => simp [List.filterMap_cons, hq]
      | some t => simp [List.filterMap_cons, hq]

/-- One item of the fetched list the processing loop iterates over.
Telethon's `iter_messages` yields both proper `Message` objects and
non-`Message` items such as `MessageService` (joins, pins); the fetch
loop's date checks read `message.date`, which both kinds carry, so the
reader appends either kind (line 122), and the processing loop then
skips non-`Message` items via `isinstance(msg, Message)` at lines
266-267. -/
inductive FetchedItem where
  /-- a proper `Message` -/
  | message (m : Msg)
  /-- a fetched item that is not a `Message` instance (for example a
  `MessageService`) -/
  | serviceMessage
deriving DecidableEq, Repr

/-- The `Message` payload of a fetched item, when it is one. -/
def fetched_msg : FetchedItem → Option Msg
  | FetchedItem.message m => some m
  | FetchedItem.serviceMessage => none

/-- The full loop body for one fetched item (lines 265-303): the
`if not isinstance(msg, Message): continue` guard at lines 266-267
skips non-`Message` items — producing no manifest record for them —
and `process_message` handles the rest. -/
def process_item (cfg : Config) (target_day : String)
    (st : ProcessingState) (it : FetchedItem) : ProcessingState :=
  match it with
  | FetchedItem.serviceMessage => st
  | FetchedItem.message m => process_message cfg target_day st m

/-- The whole message loop over the fetched list, guard included. -/
def process_fetched (cfg : Config) (target_day : String)
    (items : List FetchedItem) : ProcessingState :=
  items.foldl (process_item cfg target_day) ⟨[], [], []⟩

/-- On a fetched list consisting solely of proper messages the full
loop agrees with `process_messages`. -/
theorem process_fetched_messages_only (cfg : Config) (d : String)
    (msgs : List Msg) :
    process_fetched cfg d (msgs.map FetchedItem.message) =
      process_messages cfg d msgs := by
  unfold process_fetched process_messages
  rw [List.foldl_map]
  simp only [process_item]

/-- The full loop's manifest output is one record per fetched item that
is a proper message, in order; fetched non-`Message` items contribute
nothing. -/
theorem process_fetched_processed_aux (cfg : Config) (d : String)
    (items : List FetchedItem) (st : ProcessingState) :
    (items.foldl (process_item cfg d) st).processed_data =
      st.processed_data ++
        (items.filterMap fetched_msg).map (record_of cfg d) := by
  induction items generalizing st with
  | nil => simp
  | cons it rest ih =>
      cases it with
      | message m =>
          rw [List.foldl_cons, ih,
            show process_item cfg d st (FetchedItem.message m) =
              process_message cfg d st m from rfl,
            process_message_processed]
          simp [fetched_msg, List.filterMap_cons]
      | serviceMessage =>
          rw [List.foldl_cons, ih]
          simp [fetched_msg, List.filterMap_cons, process_item]

/-- The full loop's scheduled tasks are exactly the qualifying proper
messages' tasks, in order. -/
theorem process_fetched_tasks_aux (cfg : Config) (d : String)
    (items : List FetchedItem) (st : ProcessingState) :
    (items.foldl (process_item cfg d) st).tasks =
      st.tasks ++
        (items.filterMap fetched_msg).filterMap (qualifying_task cfg d) := by
  induction items generalizing st with
  | nil => simp
  | cons it rest ih =>
      cases it with
      | message m =>
          rw [List.foldl_cons, ih,
            show process_item cfg d st (FetchedItem.message m) =
              process_message cfg d st m from rfl,
            process_message_tasks]
          cases hq : qualifying_task cfg d m with
          | none => simp [fetched_msg, List.filterMap_cons, hq]
          | some t => simp [fetched_msg, List.filterMap_cons, hq]
      | serviceMessage =>
          rw [List.foldl_cons, ih]
          simp [fetched_msg, List.filterMap_cons, process_item]

/-- C7, counterexample: a fetched list of two items — one proper photo
message and one service message (which `iter_messages` yields and the
fetch loop appends) — produces only one manifest record: the service
item is skipped by the `isinstance(msg, Message)` guard with no record,
so not every fetched message produces a manifest record. -/
theorem C7_counterexample :
    ([FetchedItem.message ⟨1, 1, 5, "", [], none, "s", none⟩,
      FetchedItem.serviceMessage] : List FetchedItem).length = 2 ∧
    (process_fetched ⟨0, none, "dl", "ar"⟩ "D"
        [FetchedItem.message ⟨1, 1, 5, "", [], none, "s", none⟩,
         FetchedItem.serviceMessage]).processed_data.length = 1 := by
  refine ⟨by decide, by decide⟩

/-- C7, amended: every fetched item that is a proper `Message` yields
exactly one manifest record (qualifying for download or not, in stream
order), while fetched non-`Message` items (service messages) are skipped
with no record; and a download task is scheduled for a proper message
exactly when it carries a photo attachment — the only media kind the
code downloads — and its reaction tally is at least `min_reactions`:
the comparison is `<=`, so a tally exactly equal to the minimum
qualifies. -/
theorem C7_amended_manifest_and_download_iff (cfg : Config) (d : String)
    (items : List FetchedItem) :
    (process_fetched cfg d items).processed_data =
        (items.filterMap fetched_msg).map (record_of cfg d) ∧
    (process_fetched cfg d items).tasks =
        (items.filterMap fetched_msg).filterMap (qualifying_task cfg d) ∧
    ∀ m : Msg, (qualifying_task cfg d m).isSome =
      (m.photo.isSome &&
        decide (cfg.min_reactions ≤
          count_telethon_message_reactions m cfg.like_emojis)) := by
  refine ⟨?_, ?_, ?_⟩
  · have h := process_fetched_processed_aux cfg d items ⟨[], [], []⟩
    simpa [process_fetched] using h
  · have h := process_fetched_tasks_aux cfg d items ⟨[], [], []⟩
    simpa [process_fetched] using h
  · intro m
    unfold qualifying_task
    cases hp : m.photo with
    | none => simp [hp]
    | some p =>
        by_cases hc : cfg.min_reactions ≤
            count_telethon_message_reactions m cfg.like_emojis
        · simp [hp, hc]
        · simp [hp, hc]

/-- C5, counterexample: a message with a photo whose tally (0) is below
the threshold (3) schedules no download, yet its manifest record still
carries the in-archive path `photos/D_2_5_7.jpg` in its photo entry —
the manifest entry of a never-downloaded photo is not free of an archive
path. -/
theorem C5_counterexample :
    (process_messages ⟨3, none, "dl", "ar"⟩ "D"
        [⟨5, 2, 30, "t", [], some ⟨7⟩, "s", none⟩]).tasks = [] ∧
    (process_messages ⟨3, none, "dl", "ar"⟩ "D"
        [⟨5, 2, 30, "t", [], some ⟨7⟩, "s", none⟩]).processed_data =
      [⟨5, "s", none, 30, "t", 0, [⟨7, "photos/D_2_5_7.jpg"⟩]⟩] := by
  refine ⟨by decide, by decide⟩

/-! ## Concurrent download phase (`download_telethon_file` lines 168-176
and the `asyncio.gather` block lines 305-354 of `bot_logic.py`)

`asyncio.gather(*tasks, return_exceptions=True)` returns one item per
submitted task, in submission order; an item is either the coroutine's
return value or an exception the coroutine let escape.
`download_telethon_file` catches every `Exception` and returns `None`,
so in this program no exception reaches the gather result list. -/

/-- One item of the `asyncio.gather` result list. -/
inductive GatherItem where
  /-- the coroutine returned (`path` on success, `None` on a swallowed
  failure) -/
  | val (v : Option String)
  /-- the coroutine raised (captured by `return_exceptions=True`) -/
  | exc
deriving DecidableEq, Repr

/-- The download environment: whether `client.download_media` succeeds
for a destination path, and whether the file exists afterwards (the
`res.exists()` re-check at line 341). -/
structure DownloadEnv where
  ok : String → Bool
  fileExists : String → Bool

/-- `download_telethon_file`: returns the destination path on success;
any exception from `download_media` is caught, logged, and turned into
`None` (lines 168-176). -/
def download_telethon_file (env : DownloadEnv) (path : String) :
    Option String :=
  if env.ok path then some path else none

/-- The gather over all scheduled tasks (line 309): one result per task,
in submission order; every result is a returned value because
`download_telethon_file` swallows all exceptions. -/
def gather_downloads (env : DownloadEnv) (tasks : List PhotoDetail) :
    List GatherItem :=
  tasks.map (fun t => GatherItem.val (download_telethon_file env t.local_path))

/-- `successful_downloads` (line 341): the results that are paths of
existing files. -/
def successful_downloads (env : DownloadEnv) (results : List GatherItem) :
    List String :=
  results.filterMap (fun r =>
    match r with
    | GatherItem.val (some p) => if env.fileExists p then some p else none
    | GatherItem.val none => none
    | GatherItem.exc => none)

/-- Whether a gather item is an exception instance
(`isinstance(results[i], Exception)`). -/
def is_exception : GatherItem → Bool
  | GatherItem.exc => true
  | GatherItem.val _ => false

/-- `failed_downloads` (lines 342-343): the local paths of the
`photo_details` entries whose positional gather result is an exception
instance. -/
def failed_downloads (details : List (Nat × PhotoDetail))
    (results : List GatherItem) : List String :=
  (details.zip results).filterMap (fun x =>
    if is_exception x.2 then some x.1.2.local_path else none)

/-- The inner search of lines 348-351: the first `photo_details` entry
whose `local_path` equals the successful path. -/
def find_details (details : List (Nat × PhotoDetail)) (p : String) :
    Option (Nat × PhotoDetail) :=
  details.find? (fun d => d.2.local_path == p)

/-- `downloaded_files_info` (lines 345-351): for each successful path,
look up its `photo_details` entry by path and store
`msg_id -> (local_path, zip_path)`. -/
def downloaded_files_info (details : List (Nat × PhotoDetail))
    (succ : List String) : List (Nat × (String × String)) :=
  succ.foldl (fun acc p =>
    match find_details details p with
    | some d => dictInsert d.1 (p, d.2.zip_path) acc
    | none => acc) []

/-- In this program no gather result is ever an exception instance:
`download_telethon_file` catches every exception and returns `None`. -/
theorem gather_no_exceptions (env : DownloadEnv) (tasks : List PhotoDetail) :
    ∀ r ∈ gather_downloads env tasks, is_exception r = false := by
  intro r hr
  unfold gather_downloads at hr
  rcases List.mem_map.mp hr with ⟨t, _, rfl⟩
  rfl

/-- Consequently the `failed_downloads` accounting is always empty,
whatever the download environment did. -/
theorem failed_downloads_always_empty (env : DownloadEnv)
    (details : List (Nat × PhotoDetail)) (tasks : List PhotoDetail) :
    failed_downloads details (gather_downloads env tasks) = [] := by
  unfold failed_downloads
  rw [List.filterMap_eq_nil_iff]
  intro x hx
  obtain ⟨a, b⟩ := x
  have hmem : b ∈ gather_downloads env tasks := (List.of_mem_zip hx).2
  simp [gather_no_exceptions env tasks b hmem]

/-- The download tasks of the C1 scenario: three scheduled downloads for
messages 1, 2, 3. -/
def c1_tasks : List PhotoDetail :=
  [⟨"dl/a.jpg", "photos/a.jpg", ⟨100⟩⟩,
   ⟨"dl/b.jpg", "photos/b.jpg", ⟨200⟩⟩,
   ⟨"dl/c.jpg", "photos/c.jpg", ⟨300⟩⟩]

/-- The `photo_details` map of the C1 scenario, keyed by message id and
in sync with `c1_tasks` as in the source loop. -/
def c1_details : List (Nat × PhotoDetail) :=
  [(1, ⟨"dl/a.jpg", "photos/a.jpg", ⟨100⟩⟩),
   (2, ⟨"dl/b.jpg", "photos/b.jpg", ⟨200⟩⟩),
   (3, ⟨"dl/c.jpg", "photos/c.jpg", ⟨300⟩⟩)]

/-- The download environment of the C1 scenario: the download for
message 2 raises inside `client.download_media` (so
`download_telethon_file` returns `None`), the other two succeed and
leave files on disk. -/
def c1_env : DownloadEnv :=
  ⟨fun p => p != "dl/b.jpg", fun p => p != "dl/b.jpg"⟩

/-- C1, code evidence: with three submitted downloads of which the
second fails, the gather does return three outcomes in submission order,
and the siblings complete — but the failing download's outcome is the
bare value `None`, not a failure reason, and the code's failure
accounting `failed_downloads` (which looks for exception instances that
`download_telethon_file` never lets escape) is empty: no failure reason
is recorded for message 2 anywhere. -/
theorem C1_failure_reason_not_captured :
    gather_downloads c1_env c1_tasks =
      [GatherItem.val (some "dl/a.jpg"), GatherItem.val none,
       GatherItem.val (some "dl/c.jpg")] ∧
    (gather_downloads c1_env c1_tasks).length = c1_tasks.length ∧
    successful_downloads c1_env (gather_downloads c1_env c1_tasks) =
      ["dl/a.jpg", "dl/c.jpg"] ∧
    failed_downloads c1_details (gather_downloads c1_env c1_tasks) = [] := by
  refine ⟨by decide, by decide, by decide, by decide⟩

/-- Membership after a Python-style dict assignment: the element is the
new binding or was already present. -/
theorem mem_dictInsert {α : Type} (k : Nat) (v : α)
    (l : List (Nat × α)) (x : Nat × α) (hx : x ∈ dictInsert k v l) :
    x = (k, v) ∨ x ∈ l := by
  induction l with
  | nil =>
      simp only [dictInsert, List.mem_singleton] at hx
      exact Or.inl hx
  | cons hd tl ih =>
      simp only [dictInsert] at hx
      by_cases hk : hd.1 = k
      · rw [if_pos hk] at hx
        rcases List.mem_cons.mp hx with h | h
        · exact Or.inl h
        · exact Or.inr (List.mem_cons_of_mem _ h)
      · rw [if_neg hk] at hx
        rcases List.mem_cons.mp hx with h | h
        · exact Or.inr (h ▸ List.mem_cons_self _ _)
        · rcases ih h with h1 | h1
          · exact Or.inl h1
          · exact Or.inr (List.mem_cons_of_mem _ h1)

/-- Every binding of `downloaded_files_info` stores as its local path
one of the successful download paths. -/
theorem downloaded_files_info_path_mem (details : List (Nat × PhotoDetail))
    (succ : List String) (x : Nat × (String × String))
    (hx : x ∈ downloaded_files_info details succ) : x.2.1 ∈ succ := by
  have h : ∀ (l : List String) (acc : List (Nat × (String × String))),
      x ∈ l.foldl (fun acc p =>
        match find_details details p with
        | some d => dictInsert d.1 (p, d.2.zip_path) acc
        | none => acc) acc → x ∈ acc ∨ x.2.1 ∈ l := by
    intro l
    induction l with
    | nil =>
        intro acc hacc
        exact Or.inl hacc
    | cons p rest ih =>
        intro acc hacc
        rw [List.foldl_cons] at hacc
        cases hf : find_details details p with
        | none =>
            rw [hf] at hacc
            rcases ih _ hacc with h1 | h1
            · exact Or.inl h1
            · exact Or.inr (List.mem_cons_of_mem _ h1)
        | some d =>
            rw [hf] at hacc
            rcases ih _ hacc with h1 | h1
            · rcases mem_dictInsert _ _ _ _ h1 with h2 | h2
              · right
                rw [h2]
                exact List.mem_cons_self _ _
              · exact Or.inl h2
            · exact Or.inr (List.mem_cons_of_mem _ h1)
  unfold downloaded_files_info at hx
  rcases h succ [] hx with h1 | h1
  · simp at h1
  · exact h1

/-- A path listed among the successful downloads passed the existence
re-check and came from a gather result that returned it. -/
theorem successful_downloads_spec (env : DownloadEnv)
    (results : List GatherItem) (p : String)
    (hp : p ∈ successful_downloads env results) :
    env.fileExists p = true ∧ GatherItem.val (some p) ∈ results := by
  unfold successful_downloads at hp
  rcases List.mem_filterMap.mp hp with ⟨r, hr, he⟩
  cases r with
  | exc => simp at he
  | val v =>
      cases v with
      | none => simp at he
      | some q =>
          dsimp only at he
          by_cases hfe : env.fileExists q = true
          · rw [if_pos hfe] at he
            obtain rfl : q = p := Option.some_injective _ he
            exact ⟨hfe, hr⟩
          · rw [if_neg hfe] at he
            simp at he

/-- A gather result that returned a path came from a task with that
destination whose `client.download_media` call succeeded. -/
theorem gather_val_some_spec (env : DownloadEnv) (tasks : List PhotoDetail)
    (p : String)
    (hp : GatherItem.val (some p) ∈ gather_downloads env tasks) :
    env.ok p = true ∧ ∃ t ∈ tasks, t.local_path = p := by
  unfold gather_downloads at hp
  rcases List.mem_map.mp hp with ⟨t, ht, he⟩
  unfold download_telethon_file at he
  by_cases hok : env.ok t.local_path = true
  · rw [if_pos hok] at he
    have hpt : t.local_path = p := by
      injection he with he1
      exact Option.some_injective _ he1
    exact ⟨hpt ▸ hok, t, ht, hpt⟩
  · rw [if_neg hok] at he
    simp at he

/-! ## Archive builder (`process_chat_history`, lines 364-394 of
`bot_logic.py`)

`zipfile.ZipFile(zip_filepath, "w")` opens (and creates) the file
directly at the target path — there is no temporary file and no rename.
Each `writestr`/`write` may raise; an exception leaves the file at the
target path with only the entries written so far (the `except` branch at
lines 391-394 returns `None` together with `popular_photo_paths` and
deletes nothing). -/

/-- Failure switches for the archive step: whether opening the zip at
the target path succeeds, whether writing `messages.json` succeeds,
whether adding a given media file succeeds, and whether the media file
still exists at zip time (the `local_path.exists()` check at
line 382). -/
structure ZipEnv where
  openOk : Bool
  writestrOk : Bool
  writeOk : String → Bool
  localExists : String → Bool

/-- The observable state of the file at the archive target path after
the zip step: whether a file is there at all, which entries it holds,
and whether the `with` block completed cleanly (complete, valid
archive). -/
structure ZipFS where
  fileExists : Bool
  entries : List String
  complete : Bool
deriving DecidableEq, Repr

/-- The `for msg_id_f, info in downloaded_files_info.items()` loop
(lines 379-386): skip entries whose local file disappeared, add the
others under their `zip_path` arcname; a raising `zf.write` aborts the
loop with the entries written so far. -/
def write_media_entries (zenv : ZipEnv)
    (infos : List (Nat × (String × String))) (acc : List String) :
    Except (List String) (List String) :=
  match infos with
  | [] => Except.ok acc
  | (_, (lp, zp)) :: rest =>
      if zenv.localExists lp then
        if zenv.writeOk lp then write_media_entries zenv rest (acc ++ [zp])
        else Except.error acc
      else write_media_entries zenv rest acc

/-- The entries present in the file whether or not the step raised. -/
def zip_entries_of : Except (List String) (List String) → List String
  | Except.ok es => es
  | Except.error es => es

/-- The zip step (lines 372-394): open the archive directly at the
target path, write `messages.json`, then the media files.  The `dfi`
argument is `downloaded_files_info`; it is `none` when the download
phase was aborted before line 306 defined that variable, in which case
using it inside the `with` block raises a `NameError` after
`messages.json` was already written.  Returns the resulting file state
and whether the step completed without an exception. -/
def create_zip (zenv : ZipEnv)
    (dfi : Option (List (Nat × (String × String)))) : ZipFS × Bool :=
  if zenv.openOk then
    if zenv.writestrOk then
      match dfi with
      | none => (⟨true, ["messages.json"], false⟩, false)
      | some infos =>
          match write_media_entries zenv infos ["messages.json"] with
          | Except.ok es => (⟨true, es, true⟩, true)
          | Except.error es => (⟨true, es, false⟩, false)
    else (⟨true, [], false⟩, false)
  else (⟨false, [], false⟩, false)

/-- The archive file state always reports the target-path file as
present exactly when the open succeeded, and as a complete valid archive
exactly when the whole step succeeded. -/
theorem create_zip_spec (zenv : ZipEnv)
    (dfi : Option (List (Nat × (String × String)))) :
    (create_zip zenv dfi).1.complete = (create_zip zenv dfi).2 ∧
    (create_zip zenv dfi).1.fileExists = zenv.openOk := by
  unfold create_zip
  by_cases h1 : zenv.openOk = true
  · rw [if_pos h1]
    by_cases h2 : zenv.writestrOk = true
    · rw [if_pos h2]
      cases dfi with
      | none => exact ⟨rfl, h1.symm⟩
      | some infos =>
          cases hw : write_media_entries zenv infos ["messages.json"] with
          | ok es =>
              dsimp only
              rw [hw]
              exact ⟨rfl, h1.symm⟩
          | error es =>
              dsimp only
              rw [hw]
              exact ⟨rfl, h1.symm⟩
    · rw [if_neg h2]
      exact ⟨rfl, h1.symm⟩
  · rw [if_neg h1]
    have h1f : zenv.openOk = false := by
      cases h : zenv.openOk
      · rfl
      · exact absurd h h1
    exact ⟨rfl, h1f.symm⟩

/-- Every entry the media loop leaves in the archive is either already
in the accumulator or the `zip_path` of one of the
`downloaded_files_info` bindings. -/
theorem write_media_entries_mem (zenv : ZipEnv)
    (infos : List (Nat × (String × String))) (acc : List String)
    (a : String)
    (ha : a ∈ zip_entries_of (write_media_entries zenv infos acc)) :
    a ∈ acc ∨ ∃ x ∈ infos, a = x.2.2 := by
  induction infos generalizing acc with
  | nil =>
      simp only [write_media_entries, zip_entries_of] at ha
      exact Or.inl ha
  | cons hd tl ih =>
      obtain ⟨mid, lp, zp⟩ := hd
      simp only [write_media_entries] at ha
      by_cases hle : zenv.localExists lp = true
      · rw [if_pos hle] at ha
        by_cases hwo : zenv.writeOk lp = true
        · rw [if_pos hwo] at ha
          rcases ih _ ha with h1 | h1
          · rcases List.mem_append.mp h1 with h2 | h2
            · exact Or.inl h2
            · refine Or.inr ⟨(mid, lp, zp), List.mem_cons_self _ _, ?_⟩
              simpa using h2
          · rcases h1 with ⟨x, hx, hxa⟩
            exact Or.inr ⟨x, List.mem_cons_of_mem _ hx, hxa⟩
        · rw [if_neg hwo] at ha
          simp only [zip_entries_of] at ha
          exact Or.inl ha
      · rw [if_neg hle] at ha
        rcases ih _ ha with h1 | h1
        · exact Or.inl h1
        · rcases h1 with ⟨x, hx, hxa⟩
          exact Or.inr ⟨x, List.mem_cons_of_mem _ hx, hxa⟩

/-- Every entry of the produced archive is `messages.json` or the
`zip_path` of a `downloaded_files_info` binding. -/
theorem create_zip_entries_mem (zenv : ZipEnv)
    (infos : List (Nat × (String × String))) (a : String)
    (ha : a ∈ (create_zip zenv (some infos)).1.entries) :
    a = "messages.json" ∨ ∃ x ∈ infos, a = x.2.2 := by
  unfold create_zip at ha
  by_cases h1 : zenv.openOk = true
  · rw [if_pos h1] at ha
    by_cases h2 : zenv.writestrOk = true
    · rw [if_pos h2] at ha
      have ha2 : a ∈ zip_entries_of (write_media_entries zenv infos
          ["messages.json"]) := by
        dsimp only at ha
        cases hw : write_media_entries zenv infos ["messages.json"] with
        | ok es =>
            rw [hw] at ha
            simpa [zip_entries_of] using ha
        | error es =>
            rw [hw] at ha
            simpa [zip_entries_of] using ha
      rcases write_media_entries_mem zenv infos _ a ha2 with h3 | h3
      · exact Or.inl (List.mem_singleton.mp h3)
      · exact Or.inr h3
    · rw [if_neg h2] at ha
      simp at ha
  · rw [if_neg h1] at ha
    simp at ha

/-! ## The whole pipeline (`process_chat_history`, lines 180-394 of
`bot_logic.py`) -/

/-- Outcome of the history-fetch block (lines 222-239): the fetch ran
(with the reader's authorization flag and the event stream), or the
Telethon client failed to start (`SessionPasswordNeededError` or any
other exception), each of which returns `(None, [])` directly. -/
inductive FetchPhase where
  | ok (authorized : Bool) (events : List StreamEvent)
  | sessionPasswordNeeded
  | clientError
deriving DecidableEq, Repr

/-- Outcome of the download block (lines 259-362): when the download
client is authorized the gather and its bookkeeping run; otherwise the
raised `ValueError` is caught, nothing is downloaded, and the local
variable `downloaded_files_info` is never defined (`dfi = none`). -/
structure DownloadPhase where
  results : List GatherItem
  succ : List String
  failed : List String
  dfi : Option (List (Nat × (String × String)))
deriving DecidableEq, Repr

/-- The download block of `process_chat_history` (lines 305-354 inside
the `try` of lines 260-362). -/
def run_download_phase (denv : DownloadEnv) (dl_authorized : Bool)
    (st : ProcessingState) : DownloadPhase :=
  if dl_authorized then
    let results := gather_downloads denv st.tasks
    let succ := successful_downloads denv results
    ⟨results, succ, failed_downloads st.photo_details results,
     some (downloaded_files_info st.photo_details succ)⟩
  else ⟨[], [], [], none⟩

/-- The archive filename of lines 365-368 (the sanitized chat reference
is taken as given). -/
def zip_filename (chat_ref target_day : String) : String :=
  "chat_history_" ++ chat_ref ++ "_" ++ target_day ++ ".zip"

/-- Everything observable about one run of `process_chat_history`: the
returned pair (`zip_filepath`, `popular_photo_paths`) plus the
intermediate state the run produced (manifest records, scheduled tasks,
gather results, failure accounting, `downloaded_files_info`, and the
state of the file at the archive target path; `archive = none` means the
zip step never ran, so no file was touched there). -/
structure ProcessResult where
  zip_filepath : Option String
  popular_photo_paths : List String
  processed_data : List MessageInfo
  tasks : List PhotoDetail
  results : List GatherItem
  failed : List String
  dfi : Option (List (Nat × (String × String)))
  archive : Option ZipFS
deriving DecidableEq, Repr

/-- The result of every early `return None, []` path (lines 193, 235,
238, 244): nothing is processed, downloaded, or archived. -/
def emptyProcessResult : ProcessResult :=
  ⟨none, [], [], [], [], [], none, none⟩

/-- `process_chat_history` (lines 180-394): the API-credential guard,
the fetch block, the `if not messages: return None, []` guard
(line 241-244), the message loop, the download block, and the zip step
returning `(str(zip_filepath), popular_photo_paths)` on success or
`(None, popular_photo_paths)` when the zip step raised. -/
def process_chat_history (api_configured : Bool) (cfg : Config)
    (target_day chat_ref : String) (s e : Int) (fetch : FetchPhase)
    (denv : DownloadEnv) (dl_authorized : Bool) (zenv : ZipEnv) :
    ProcessResult :=
  if api_configured then
    match fetch with
    | FetchPhase.sessionPasswordNeeded => emptyProcessResult
    | FetchPhase.clientError => emptyProcessResult
    | FetchPhase.ok authorized events =>
        let messages :=
          (get_chat_history_for_day_telethon authorized s e events).messages
        if messages.isEmpty then emptyProcessResult
        else
          let st := process_messages cfg target_day messages
          let dl := run_download_phase denv dl_authorized st
          let zres := create_zip zenv dl.dfi
          { zip_filepath :=
              if zres.2 then
                some (cfg.archive_dir ++ "/" ++ zip_filename chat_ref target_day)
              else none,
            popular_photo_paths := dl.succ,
            processed_data := st.processed_data,
            tasks := st.tasks,
            results := dl.results,
            failed := dl.failed,
            dfi := dl.dfi,
            archive := some zres.1 }
  else emptyProcessResult

/-- A zip step that reports success passed the open of the target
file. -/
theorem create_zip_success_open (zenv : ZipEnv)
    (dfi : Option (List (Nat × (String × String))))
    (h : (create_zip zenv dfi).2 = true) : zenv.openOk = true := by
  by_cases h1 : zenv.openOk = true
  · exact h1
  · exfalso
    unfold create_zip at h
    rw [if_neg h1] at h
    simp at h

/-- Unfolding of a run whose fetch succeeded with a non-empty message
list. -/
theorem process_chat_history_nonempty (cfg : Config)
    (target_day chat_ref : String) (s e : Int) (auth : Bool)
    (evs : List StreamEvent) (denv : DownloadEnv) (dl_authorized : Bool)
    (zenv : ZipEnv)
    (h : ((get_chat_history_for_day_telethon auth s e evs).messages).isEmpty
        = false) :
    process_chat_history true cfg target_day chat_ref s e
        (FetchPhase.ok auth evs) denv dl_authorized zenv =
      { zip_filepath :=
          if (create_zip zenv (run_download_phase denv dl_authorized
              (process_messages cfg target_day
                (get_chat_history_for_day_telethon auth s e evs).messages)).dfi).2
          then some (cfg.archive_dir ++ "/" ++ zip_filename chat_ref target_day)
          else none,
        popular_photo_paths :=
          (run_download_phase denv dl_authorized
            (process_messages cfg target_day
              (get_chat_history_for_day_telethon auth s e evs).messages)).succ,
        processed_data :=
          (process_messages cfg target_day
            (get_chat_history_for_day_telethon auth s e evs).messages).processed_data,
        tasks :=
          (process_messages cfg target_day
            (get_chat_history_for_day_telethon auth s e evs).messages).tasks,
        results :=
          (run_download_phase denv dl_authorized
            (process_messages cfg target_day
              (get_chat_history_for_day_telethon auth s e evs).messages)).results,
        failed :=
          (run_download_phase denv dl_authorized
            (process_messages cfg target_day
              (get_chat_history_for_day_telethon auth s e evs).messages)).failed,
        dfi :=
          (run_download_phase denv dl_authorized
            (process_messages cfg target_day
              (get_chat_history_for_day_telethon auth s e evs).messages)).dfi,
        archive :=
          some (create_zip zenv (run_download_phase denv dl_authorized
            (process_messages cfg target_day
              (get_chat_history_for_day_telethon auth s e evs).messages)).dfi).1 } := by
  unfold process_chat_history
  rw [if_pos rfl]
  dsimp only
  rw [h]
  simp

/-- Configuration of the C4 scenario: threshold 0, no reaction
allow-list. -/
def c4_cfg : Config := ⟨0, none, "dl", "ar"⟩

/-- The single in-window photo message of the C4 scenario. -/
def c4_msg : Msg := ⟨1, 1, 5, "", [], some ⟨7⟩, "s", none⟩

/-- Downloads all succeed in the C4 scenario. -/
def c4_denv : DownloadEnv := ⟨fun _ => true, fun _ => true⟩

/-- In the C4 scenario the zip opens and `messages.json` is written, but
adding the media file raises (for example the disk fills up). -/
def c4_zenv : ZipEnv := ⟨true, true, fun _ => false, fun _ => true⟩

/-- C4, counterexample: a run whose zip step fails while adding a media
file returns `None` for the archive — but a partial file (holding only
`messages.json`, not the media entry the manifest references) is left at
the archive target path, because the zip is written directly there with
no temp-and-rename; the downloaded media path is still returned. -/
theorem C4_counterexample :
    (process_chat_history true c4_cfg "D" "c" 0 10
        (FetchPhase.ok true [StreamEvent.msg c4_msg]) c4_denv true
        c4_zenv).zip_filepath = none ∧
    (process_chat_history true c4_cfg "D" "c" 0 10
        (FetchPhase.ok true [StreamEvent.msg c4_msg]) c4_denv true
        c4_zenv).archive = some ⟨true, ["messages.json"], false⟩ ∧
    (process_chat_history true c4_cfg "D" "c" 0 10
        (FetchPhase.ok true [StreamEvent.msg c4_msg]) c4_denv true
        c4_zenv).popular_photo_paths = ["dl/D_1_1_7.jpg"] := by
  refine ⟨by decide, by decide, by decide⟩

/-- C4, amended: archive creation is not atomic — on success a complete
valid archive exists at the target path and its path is returned; when
the zip step fails the function returns `None` for the archive while the
already-downloaded media paths are still returned to the caller, but a
file (partial, not a complete archive) remains at the target path
whenever the open succeeded, since the zip is written directly at the
target with no temporary file and rename. -/
theorem C4_amended_no_atomic_archive (cfg : Config) (d chat : String)
    (s e : Int) (auth : Bool) (evs : List StreamEvent) (denv : DownloadEnv)
    (zenv : ZipEnv)
    (h : ((get_chat_history_for_day_telethon auth s e evs).messages).isEmpty
        = false) :
    ((process_chat_history true cfg d chat s e (FetchPhase.ok auth evs) denv
        true zenv).zip_filepath.isSome = true →
      ∃ fs, (process_chat_history true cfg d chat s e (FetchPhase.ok auth evs)
          denv true zenv).archive = some fs ∧
        fs.complete = true ∧ fs.fileExists = true) ∧
    ((process_chat_history true cfg d chat s e (FetchPhase.ok auth evs) denv
        true zenv).zip_filepath = none →
      (process_chat_history true cfg d chat s e (FetchPhase.ok auth evs) denv
          true zenv).popular_photo_paths =
        successful_downloads denv (gather_downloads denv
          (process_messages cfg d
            (get_chat_history_for_day_telethon auth s e evs).messages).tasks) ∧
      ∃ fs, (process_chat_history true cfg d chat s e (FetchPhase.ok auth evs)
          denv true zenv).archive = some fs ∧
        fs.complete = false ∧ fs.fileExists = zenv.openOk) := by
  rw [process_chat_history_nonempty cfg d chat s e auth evs denv true zenv h]
  dsimp only
  by_cases hz : (create_zip zenv (run_download_phase denv true
      (process_messages cfg d
        (get_chat_history_for_day_telethon auth s e evs).messages)).dfi).2
      = true
  · constructor
    · intro _
      refine ⟨_, rfl, ?_, ?_⟩
      · rw [(create_zip_spec zenv _).1, hz]
      · rw [(create_zip_spec zenv _).2, create_zip_success_open zenv _ hz]
    · intro hn
      rw [if_pos hz] at hn
      simp at hn
  · have hzf : (create_zip zenv (run_download_phase denv true
        (process_messages cfg d
          (get_chat_history_for_day_telethon auth s e evs).messages)).dfi).2
        = false := by
      cases h2 : (create_zip zenv (run_download_phase denv true
          (process_messages cfg d
            (get_chat_history_for_day_telethon auth s e
              evs).messages)).dfi).2
      · rfl
      · exact absurd h2 hz
    constructor
    · intro hp
      rw [if_neg hz] at hp
      simp at hp
    · intro _
      refine ⟨rfl, _, rfl, ?_, (create_zip_spec zenv _).2⟩
      rw [(create_zip_spec zenv _).1, hzf]

/-- Witness for C4: the amended statement instantiated at the concrete
failing-zip scenario, with its non-empty-fetch hypothesis discharged by
evaluation. -/
theorem C4_amended_no_atomic_archive_witness :
    ((process_chat_history true c4_cfg "D" "c" 0 10
        (FetchPhase.ok true [StreamEvent.msg c4_msg]) c4_denv
        true c4_zenv).zip_filepath.isSome = true →
      ∃ fs, (process_chat_history true c4_cfg "D" "c" 0 10
          (FetchPhase.ok true [StreamEvent.msg c4_msg]) c4_denv true
          c4_zenv).archive = some fs ∧
        fs.complete = true ∧ fs.fileExists = true) ∧
    ((process_chat_history true c4_cfg "D" "c" 0 10
        (FetchPhase.ok true [StreamEvent.msg c4_msg]) c4_denv true
        c4_zenv).zip_filepath = none →
      (process_chat_history true c4_cfg "D" "c" 0 10
          (FetchPhase.ok true [StreamEvent.msg c4_msg]) c4_denv true
          c4_zenv).popular_photo_paths =
        successful_downloads c4_denv (gather_downloads c4_denv
          (process_messages c4_cfg "D"
            (get_chat_history_for_day_telethon true 0 10
              [StreamEvent.msg c4_msg]).messages).tasks) ∧
      ∃ fs, (process_chat_history true c4_cfg "D" "c" 0 10
          (FetchPhase.ok true [StreamEvent.msg c4_msg]) c4_denv true
          c4_zenv).archive = some fs ∧
        fs.complete = false ∧ fs.fileExists = c4_zenv.openOk) :=
  C4_amended_no_atomic_archive c4_cfg "D" "c" 0 10 true
    [StreamEvent.msg c4_msg] c4_denv c4_zenv (by decide)

/-- C5 witness data: a qualifying photo message (tally 5 at
threshold 3), downloads and zip writes all succeeding. -/
def c5w_cfg : Config := ⟨3, none, "dl", "ar"⟩

/-- The qualifying photo message of the C5 witness scenario. -/
def c5w_msg : Msg := ⟨5, 2, 30, "t", [⟨"x", 5⟩], some ⟨7⟩, "s", none⟩

/-- All downloads succeed in the C5 witness scenario. -/
def c5w_denv : DownloadEnv := ⟨fun _ => true, fun _ => true⟩

/-- The zip step fully succeeds in the C5 witness scenario. -/
def c5w_zenv : ZipEnv := ⟨true, true, fun _ => true, fun _ => true⟩

/-- C5, amended: the manifest entry of every photo-bearing message
carries the in-archive path in its photo entry regardless of whether the
download qualified, was attempted, or succeeded; the archive container
itself holds, besides `messages.json`, only entries whose local file was
successfully downloaded (`download_media` succeeded and the file
exists), so a manifest photo entry may reference a path absent from the
container. -/
theorem C5_amended_zip_path_always_recorded (cfg : Config) (d : String)
    (msgs : List Msg) (denv : DownloadEnv) (zenv : ZipEnv) :
    (∀ m ∈ msgs, ∀ p : PhotoObj, m.photo = some p →
      (record_of cfg d m).photos =
          [⟨p.id, "photos/" ++ photo_filename d m.chat_id m.id p.id⟩] ∧
      record_of cfg d m ∈ (process_messages cfg d msgs).processed_data) ∧
    (∀ a ∈ (create_zip zenv (some (downloaded_files_info
          (process_messages cfg d msgs).photo_details
          (successful_downloads denv (gather_downloads denv
            (process_messages cfg d msgs).tasks))))).1.entries,
      a = "messages.json" ∨
      ∃ lp : String, denv.ok lp = true ∧ denv.fileExists lp = true ∧
        ∃ mid : Nat, (mid, (lp, a)) ∈ downloaded_files_info
          (process_messages cfg d msgs).photo_details
          (successful_downloads denv (gather_downloads denv
            (process_messages cfg d msgs).tasks))) := by
  constructor
  · intro m hm p hp
    constructor
    · simp [record_of, hp]
    · have h := process_messages_processed_aux cfg d msgs ⟨[], [], []⟩
      unfold process_messages
      rw [h]
      simpa using List.mem_map_of_mem (record_of cfg d) hm
  · intro a ha
    rcases create_zip_entries_mem zenv _ a ha with h1 | ⟨x, hx, hxa⟩
    · exact Or.inl h1
    · obtain ⟨mid, lp, zp⟩ := x
      have hlp : lp ∈ successful_downloads denv (gather_downloads denv
          (process_messages cfg d msgs).tasks) :=
        downloaded_files_info_path_mem _ _ _ hx
      have hsp := successful_downloads_spec denv _ lp hlp
      have hgv := gather_val_some_spec denv _ lp hsp.2
      exact Or.inr ⟨lp, hgv.1, hsp.1, mid, hxa ▸ hx⟩

/-- Witness for C5: the amended statement instantiated at the concrete
qualifying-message scenario, with every hypothesis discharged — the
manifest record of the photo message carries the in-archive path, and
the media entry actually present in the container comes from a
successful download. -/
theorem C5_amended_zip_path_always_recorded_witness :
    ((record_of c5w_cfg "D" c5w_msg).photos =
        [⟨7, "photos/D_2_5_7.jpg"⟩] ∧
      record_of c5w_cfg "D" c5w_msg ∈
        (process_messages c5w_cfg "D" [c5w_msg]).processed_data) ∧
    ("photos/D_2_5_7.jpg" = "messages.json" ∨
      ∃ lp : String, c5w_denv.ok lp = true ∧ c5w_denv.fileExists lp = true ∧
        ∃ mid : Nat, (mid, (lp, "photos/D_2_5_7.jpg")) ∈
          downloaded_files_info
            (process_messages c5w_cfg "D" [c5w_msg]).photo_details
            (successful_downloads c5w_denv (gather_downloads c5w_denv
              (process_messages c5w_cfg "D" [c5w_msg]).tasks))) := by
  have h := C5_amended_zip_path_always_recorded c5w_cfg "D" [c5w_msg]
    c5w_denv c5w_zenv
  exact ⟨h.1 c5w_msg (List.mem_singleton.mpr rfl) ⟨7⟩ rfl,
         h.2 "photos/D_2_5_7.jpg" (by decide)⟩

/-- C10: whenever the fetch phase produces no messages — the client
failed to start (`SessionPasswordNeededError` or any other exception),
or the fetch ran and returned the empty list — `process_chat_history`
returns `(None, [])`, schedules no download, and never opens an archive
file; and every error path of the reader (unauthorized session, access
error, invalid entity, flood wait, any other exception) returns that
same empty list, so at the return-value interface an empty day and a
failed fetch produce the identical result. -/
theorem C10_empty_fetch_indistinguishable (cfg : Config) (d chat : String)
    (s e : Int) (fetch : FetchPhase) (denv : DownloadEnv)
    (dl_authorized : Bool) (zenv : ZipEnv)
    (h : fetch = FetchPhase.sessionPasswordNeeded ∨
        fetch = FetchPhase.clientError ∨
        ∃ auth evs, fetch = FetchPhase.ok auth evs ∧
          (get_chat_history_for_day_telethon auth s e evs).messages = []) :
    process_chat_history true cfg d chat s e fetch denv dl_authorized zenv =
        emptyProcessResult ∧
    (∀ s1 e1 : Int, ∀ evs1 : List StreamEvent,
      (get_chat_history_for_day_telethon false s1 e1 evs1).messages = []) ∧
    (∀ s1 e1 : Int, ∀ pre : List Msg, ∀ k : Nat, ∀ rest : List StreamEvent,
      (get_chat_history_for_day_telethon true s1 e1
        (pre.map StreamEvent.msg ++ StreamEvent.floodWait k :: rest)).messages
        = []) ∧
    (∀ s1 e1 : Int, ∀ pre : List Msg, ∀ rest : List StreamEvent,
      (get_chat_history_for_day_telethon true s1 e1
        (pre.map StreamEvent.msg ++ StreamEvent.accessError :: rest)).messages
        = []) ∧
    (∀ s1 e1 : Int, ∀ pre : List Msg, ∀ rest : List StreamEvent,
      (get_chat_history_for_day_telethon true s1 e1
        (pre.map StreamEvent.msg ++ StreamEvent.valueError :: rest)).messages
        = []) ∧
    (∀ s1 e1 : Int, ∀ pre : List Msg, ∀ rest : List StreamEvent,
      (get_chat_history_for_day_telethon true s1 e1
        (pre.map StreamEvent.msg ++ StreamEvent.otherError :: rest)).messages
        = []) := by
  refine ⟨?_, ?_, ?_, ?_, ?_, ?_⟩
  · rcases h with h | h | ⟨auth, evs, rfl, hm⟩
    · rw [h]
      rfl
    · rw [h]
      rfl
    · unfold process_chat_history
      rw [if_pos rfl]
      dsimp only
      rw [hm]
      rfl
  · intro s1 e1 evs1
    rfl
  · intro s1 e1 pre k rest
    unfold get_chat_history_for_day_telethon
    rw [if_pos rfl, history_loop_append]
    rfl
  · intro s1 e1 pre rest
    unfold get_chat_history_for_day_telethon
    rw [if_pos rfl, history_loop_append]
    rfl
  · intro s1 e1 pre rest
    unfold get_chat_history_for_day_telethon
    rw [if_pos rfl, history_loop_append]
    rfl
  · intro s1 e1 pre rest
    unfold get_chat_history_for_day_telethon
    rw [if_pos rfl, history_loop_append]
    rfl

/-- Witness for C10: the statement instantiated at a run whose stream
raises an access error immediately (the fetch returns the empty list),
with the hypothesis discharged by evaluation. -/
theorem C10_empty_fetch_indistinguishable_witness :
    process_chat_history true ⟨0, none, "dl", "ar"⟩ "D" "c" 0 10
        (FetchPhase.ok true [StreamEvent.accessError])
        ⟨fun _ => true, fun _ => true⟩ true
        ⟨true, true, fun _ => true, fun _ => true⟩ = emptyProcessResult ∧
    (∀ s1 e1 : Int, ∀ evs1 : List StreamEvent,
      (get_chat_history_for_day_telethon false s1 e1 evs1).messages = []) ∧
    (∀ s1 e1 : Int, ∀ pre : List Msg, ∀ k : Nat, ∀ rest : List StreamEvent,
      (get_chat_history_for_day_telethon true s1 e1
        (pre.map StreamEvent.msg ++ StreamEvent.floodWait k :: rest)).messages
        = []) ∧
    (∀ s1 e1 : Int, ∀ pre : List Msg, ∀ rest : List StreamEvent,
      (get_chat_history_for_day_telethon true s1 e1
        (pre.map StreamEvent.msg ++ StreamEvent.accessError :: rest)).messages
        = []) ∧
    (∀ s1 e1 : Int, ∀ pre : List Msg, ∀ rest : List StreamEvent,
      (get_chat_history_for_day_telethon true s1 e1
        (pre.map StreamEvent.msg ++ StreamEvent.valueError :: rest)).messages
        = []) ∧
    (∀ s1 e1 : Int, ∀ pre : List Msg, ∀ rest : List StreamEvent,
      (get_chat_history_for_day_telethon true s1 e1
        (pre.map StreamEvent.msg ++ StreamEvent.otherError :: rest)).messages
        = []) :=
  C10_empty_fetch_indistinguishable ⟨0, none, "dl", "ar"⟩ "D" "c" 0 10
    (FetchPhase.ok true [StreamEvent.accessError])
    ⟨fun _ => true, fun _ => true⟩ true
    ⟨true, true, fun _ => true, fun _ => true⟩
    (Or.inr (Or.inr ⟨true, [StreamEvent.accessError], rfl, by decide⟩))

/-! ## Delivery reporter (`send_raw_history_to_server`, lines 417-477 of
`main.py`)

The HTTP exchange is embedded as its outcome: either the POST itself
raised a `requests` exception (network error), or a final response with
a status code and a body.  The body is `notJson` (raises
`JSONDecodeError`, which the inner handler logs before falling through
to return `None`), `jsonOther` (parses but is not an object, so the
subsequent indexing raises and is caught by the outer
`except Exception`), or a JSON object with or without an
`image_base64` field whose value either base64-decodes to some bytes or
raises on decoding (`binascii.Error`, caught by the outer
`except Exception`).  `requests.Response.raise_for_status` raises
exactly for status codes in `[400, 600)`.  The saved filename embeds
`datetime.now()`, passed in as `nowStamp`. -/

/-- The value found under the `image_base64` response field. -/
inductive B64Field where
  | valid (bytes : List Nat)
  | invalid
deriving DecidableEq, Repr

/-- The parse outcome of the response body. -/
inductive RespBody where
  | notJson
  | jsonOther
  | jsonObj (image_base64 : Option B64Field)
deriving DecidableEq, Repr

/-- The outcome of `requests.post`. -/
inductive PostOutcome where
  | netError
  | resp (status : Nat) (body : RespBody)
deriving DecidableEq, Repr

/-- Whether a status code is a 2xx success. -/
def is2xx (st : Nat) : Bool :=
  decide (200 ≤ st ∧ st < 300)

/-- `send_raw_history_to_server` (lines 417-477 of `main.py`): empty
data short-circuits; a network error or a 4xx/5xx status
(`raise_for_status`) is caught and yields `None`; a body that is not a
JSON object with a decodable `image_base64` payload yields `None`
through the logged-and-swallowed error paths; otherwise the payload is
decoded, persisted under the download directory, and its path
returned. -/
def send_raw_history_to_server (download_dir nowStamp data : String)
    (outcome : PostOutcome) : Option String :=
  if data = "" then none
  else
    match outcome with
    | PostOutcome.netError => none
    | PostOutcome.resp st body =>
        if 400 ≤ st ∧ st < 600 then none
        else
          match body with
          | RespBody.notJson => none
          | RespBody.jsonOther => none
          | RespBody.jsonObj none => none
          | RespBody.jsonObj (some B64Field.invalid) => none
          | RespBody.jsonObj (some (B64Field.valid _)) =>
              some (download_dir ++ "/image_" ++ nowStamp ++ ".png")

/-- C9, counterexample: a final response with the non-2xx status 300
whose body is a JSON object with a valid `image_base64` payload makes
the reporter decode, persist, and return a path — `raise_for_status`
only raises for 4xx/5xx, so a non-2xx response is not always converted
into a no-artifact result as the claim states. -/
theorem C9_counterexample :
    is2xx 300 = false ∧
    send_raw_history_to_server "dl" "t" "x"
        (PostOutcome.resp 300 (RespBody.jsonObj (some (B64Field.valid [1]))))
      = some "dl/image_t.png" := by
  refine ⟨by decide, by decide⟩

/-- C9, amended: the reporter never propagates a failure (it is a total
function into an optional path and never invalidates the archive, which
it does not touch); a 4xx or 5xx response — the statuses
`raise_for_status` raises for — and a network failure are converted into
a no-artifact result; and a path is returned exactly when the final
status is outside `[400, 600)`, the body is a JSON object carrying a
decodable `image_base64` payload, and the submitted data was non-empty,
in which case the decoded payload is persisted under the download
directory and that path is returned. -/
theorem C9_amended_reporter (download_dir nowStamp data : String)
    (outcome : PostOutcome) :
    (send_raw_history_to_server download_dir nowStamp data outcome =
        some (download_dir ++ "/image_" ++ nowStamp ++ ".png") ↔
      data ≠ "" ∧ ∃ st : Nat, ∃ bytes : List Nat,
        outcome = PostOutcome.resp st
          (RespBody.jsonObj (some (B64Field.valid bytes))) ∧
        ¬(400 ≤ st ∧ st < 600)) ∧
    (send_raw_history_to_server download_dir nowStamp data outcome =
        some (download_dir ++ "/image_" ++ nowStamp ++ ".png") ∨
      send_raw_history_to_server download_dir nowStamp data outcome = none) ∧
    (∀ st : Nat, ∀ body : RespBody,
      outcome = PostOutcome.resp st body → 400 ≤ st → st < 600 →
      send_raw_history_to_server download_dir nowStamp data outcome = none) ∧
    (outcome = PostOutcome.netError →
      send_raw_history_to_server download_dir nowStamp data outcome = none) := by
  unfold send_raw_history_to_server
  by_cases hd : data = ""
  · rw [if_pos hd]
    refine ⟨⟨?_, ?_⟩, Or.inr rfl, fun _ _ _ _ _ => rfl, fun _ => rfl⟩
    · intro h
      exact Option.noConfusion h
    · intro h
      exact absurd hd h.1
  · rw [if_neg hd]
    cases outcome with
    | netError =>
        refine ⟨⟨?_, ?_⟩, Or.inr rfl, ?_, fun _ => rfl⟩
        · intro h
          exact Option.noConfusion h
        · intro h
          rcases h with ⟨hne, st, bytes, heq, hnr⟩
          exact PostOutcome.noConfusion heq
        · intro st body hch _ _
          exact PostOutcome.noConfusion hch
    | resp st body =>
        dsimp only
        by_cases hrs : 400 ≤ st ∧ st < 600
        · rw [if_pos hrs]
          refine ⟨⟨?_, ?_⟩, Or.inr rfl, fun _ _ _ _ _ => rfl, ?_⟩
          · intro h
            exact Option.noConfusion h
          · intro h
            rcases h with ⟨hne, st1, bytes, heq, hnr⟩
            injection heq with h1 h2
            exact absurd (h1 ▸ hrs) hnr
          · intro hne
            exact PostOutcome.noConfusion hne
        · rw [if_neg hrs]
          cases body with
          | notJson =>
              refine ⟨⟨?_, ?_⟩, Or.inr rfl, fun _ _ _ _ _ => rfl,
                      fun hne => PostOutcome.noConfusion hne⟩
              · intro h
                exact Option.noConfusion h
              · intro h
                rcases h with ⟨hne, st1, bytes, heq, hnr⟩
                injection heq with h1 h2
                exact RespBody.noConfusion h2
          | jsonOther =>
              refine ⟨⟨?_, ?_⟩, Or.inr rfl, fun _ _ _ _ _ => rfl,
                      fun hne => PostOutcome.noConfusion hne⟩
              · intro h
                exact Option.noConfusion h
              · intro h
                rcases h with ⟨hne, st1, bytes, heq, hnr⟩
                injection heq with h1 h2
                exact RespBody.noConfusion h2
          | jsonObj img =>
              cases img with
              | none =>
                  refine ⟨⟨?_, ?_⟩, Or.inr rfl, fun _ _ _ _ _ => rfl,
                          fun hne => PostOutcome.noConfusion hne⟩
                  · intro h
                    exact Option.noConfusion h
                  · intro h
                    rcases h with ⟨hne, st1, bytes, heq, hnr⟩
                    injection heq with h1 h2
                    injection h2 with h3
                    exact Option.noConfusion h3
              | some fld =>
                  cases fld with
                  | invalid =>
                      refine ⟨⟨?_, ?_⟩, Or.inr rfl, fun _ _ _ _ _ => rfl,
                              fun hne => PostOutcome.noConfusion hne⟩
                      · intro h
                        exact Option.noConfusion h
                      · intro h
                        rcases h with ⟨hne, st1, bytes, heq, hnr⟩
                        injection heq with h1 h2
                        injection h2 with h3
                        injection h3 with h4
                        exact B64Field.noConfusion h4
                  | valid bs =>
                      refine ⟨⟨?_, ?_⟩, Or.inl rfl, ?_, ?_⟩
                      · intro _
                        exact ⟨hd, st, bs, rfl, hrs⟩
                      · intro _
                        rfl
                      · intro st1 body1 heq h4 h6
                        injection heq with h1 h2
                        rw [h1] at hrs
                        exact absurd ⟨h4, h6⟩ hrs
                      · intro hne
                        exact PostOutcome.noConfusion hne

/-- Witness for C2's amended statement: instantiated at a concrete
two-message stream straddling the end boundary. -/
theorem C2_amended_no_early_termination_witness :
    (get_chat_history_for_day_telethon true 0 10
        (([⟨1, 42, 5, "", [], none, "s", none⟩,
           ⟨2, 42, 10, "", [], none, "s", none⟩] : List Msg).map
          StreamEvent.msg)).examined =
      ([⟨1, 42, 5, "", [], none, "s", none⟩,
        ⟨2, 42, 10, "", [], none, "s", none⟩] : List Msg).length ∧
    (get_chat_history_for_day_telethon true 0 10
        (([⟨1, 42, 5, "", [], none, "s", none⟩,
           ⟨2, 42, 10, "", [], none, "s", none⟩] : List Msg).map
          StreamEvent.msg)).messages =
      ([⟨1, 42, 5, "", [], none, "s", none⟩,
        ⟨2, 42, 10, "", [], none, "s", none⟩] : List Msg).filter
        (in_window 0 10) :=
  C2_amended_no_early_termination 0 10
    [⟨1, 42, 5, "", [], none, "s", none⟩,
     ⟨2, 42, 10, "", [], none, "s", none⟩]

/-- Witness for C6's amended statement: instantiated at a concrete
stream with one collected message before a `FloodWaitError(5)`. -/
theorem C6_amended_floodwait_aborts_witness :
    get_chat_history_for_day_telethon true 0 10
        (([⟨1, 42, 3, "", [], none, "s", none⟩] : List Msg).map
            StreamEvent.msg ++ StreamEvent.floodWait 5 ::
          [StreamEvent.msg ⟨2, 42, 4, "", [], none, "s", none⟩]) =
      ⟨[], ([⟨1, 42, 3, "", [], none, "s", none⟩] : List Msg).length + 1,
        5 + 1⟩ :=
  C6_amended_floodwait_aborts 0 10 [⟨1, 42, 3, "", [], none, "s", none⟩] 5
    [StreamEvent.msg ⟨2, 42, 4, "", [], none, "s", none⟩]

/-- Witness for C7's amended statement: instantiated at a fetched list
holding one photo message whose tally (2) is exactly the configured
minimum (2) — the boundary case qualifies — followed by a service
message, which yields no record. -/
theorem C7_amended_manifest_and_download_iff_witness :
    (process_fetched ⟨2, none, "dl", "ar"⟩ "D"
        [FetchedItem.message ⟨1, 1, 5, "", [⟨"x", 2⟩], some ⟨9⟩, "s", none⟩,
         FetchedItem.serviceMessage]).processed_data =
      (([FetchedItem.message ⟨1, 1, 5, "", [⟨"x", 2⟩], some ⟨9⟩, "s", none⟩,
         FetchedItem.serviceMessage] : List FetchedItem).filterMap
          fetched_msg).map (record_of ⟨2, none, "dl", "ar"⟩ "D") ∧
    (process_fetched ⟨2, none, "dl", "ar"⟩ "D"
        [FetchedItem.message ⟨1, 1, 5, "", [⟨"x", 2⟩], some ⟨9⟩, "s", none⟩,
         FetchedItem.serviceMessage]).tasks =
      (([FetchedItem.message ⟨1, 1, 5, "", [⟨"x", 2⟩], some ⟨9⟩, "s", none⟩,
         FetchedItem.serviceMessage] : List FetchedItem).filterMap
          fetched_msg).filterMap (qualifying_task ⟨2, none, "dl", "ar"⟩ "D") ∧
    ∀ m : Msg,
      (qualifying_task ⟨2, none, "dl", "ar"⟩ "D" m).isSome =
        (m.photo.isSome &&
          decide (Config.min_reactions ⟨2, none, "dl", "ar"⟩ ≤
            count_telethon_message_reactions m
              (Config.like_emojis ⟨2, none, "dl", "ar"⟩))) :=
  C7_amended_manifest_and_download_iff ⟨2, none, "dl", "ar"⟩ "D"
    [FetchedItem.message ⟨1, 1, 5, "", [⟨"x", 2⟩], some ⟨9⟩, "s", none⟩,
     FetchedItem.serviceMessage]

/-- Witness for C8: instantiated at a concrete stream containing one
message exactly at `startUtc` and one exactly at `endUtc`; the one at
the start is a member of the output, per the equivalence. -/
theorem C8_half_open_window_witness :
    (⟨1, 42, 0, "", [], none, "s", none⟩ : Msg) ∈
        (get_chat_history_for_day_telethon true 0 10
          (([⟨1, 42, 0, "", [], none, "s", none⟩,
             ⟨2, 42, 10, "", [], none, "s", none⟩] : List Msg).map
            StreamEvent.msg)).messages ↔
      (⟨1, 42, 0, "", [], none, "s", none⟩ : Msg) ∈
          ([⟨1, 42, 0, "", [], none, "s", none⟩,
            ⟨2, 42, 10, "", [], none, "s", none⟩] : List Msg) ∧
        (0 : Int) ≤ (⟨1, 42, 0, "", [], none, "s", none⟩ : Msg).date ∧
        (⟨1, 42, 0, "", [], none, "s", none⟩ : Msg).date < 10 :=
  C8_half_open_window 0 10
    [⟨1, 42, 0, "", [], none, "s", none⟩,
     ⟨2, 42, 10, "", [], none, "s", none⟩]
    ⟨1, 42, 0, "", [], none, "s", none⟩

/-- Witness for C9: the amended statement applied concretely in both
directions — a 204 response whose body carries a decodable
`image_base64` payload makes the reporter return the persisted path
(the sufficiency direction of the equivalence), and a network failure is
converted into a no-artifact result. -/
theorem C9_amended_reporter_witness :
    send_raw_history_to_server "dl" "t" "x"
        (PostOutcome.resp 204 (RespBody.jsonObj (some (B64Field.valid [1]))))
      = some ("dl" ++ "/image_" ++ "t" ++ ".png") ∧
    send_raw_history_to_server "dl" "t" "x" PostOutcome.netError = none :=
  ⟨(C9_amended_reporter "dl" "t" "x"
      (PostOutcome.resp 204
        (RespBody.jsonObj (some (B64Field.valid [1]))))).1.mpr
      ⟨by decide, 204, [1], rfl, by decide⟩,
   (C9_amended_reporter "dl" "t" "x" PostOutcome.netError).2.2.2 rfl⟩

end HistoryBot
